import Mathlib

/-!
# Verification of the Loan-Chatbot conversation/underwriting server

A shallow embedding of the Loan-Chatbot repository's executable core:

* `chatStep` embeds the `POST /api/chat/message` handler of `src/app.js`
  (the all-in-one server): per-session stage machine, form-submission branch
  with the three loan options, greeting, option-selection, credit-check,
  sanction-letter and approval branches, plus the default reply.
* `statistics` embeds `GET /api/history/statistics` of `src/app.js`.
* `calculateEMI` / `emiFormula` embed the landing page's `calculateEMI`
  (reducing-balance annuity, rounded with JavaScript `Math.round`).
* `withRetry` embeds the frontend API client's exponential-backoff retry
  wrapper (`withRetry` in the services layer).
* `resetConversation` embeds the `useChat` hook's reset handler.

Conventions of the embedding:

* JavaScript strings are `List Char`; `String.prototype.includes` is
  `strIncludes`, `toLowerCase` is `lowerStr` (ASCII, which covers every
  pattern the server matches on).
* JavaScript numbers that the server manipulates exactly (amounts, salaries,
  rates) are modelled as `ℚ`; `Math.round` on nonnegative values is
  `jsRound` (round half up, i.e. `⌊x + 1/2⌋`).
* `Date.now()` is an explicit `now : ℕ` argument of each step; the template
  string ids `` `APP_${Date.now()}` `` and `` `SL_${Date.now()}` `` are
  modelled by the timestamp itself (decimal rendering is injective, so id
  equality/distinctness is preserved).
* `Math.random()` draws are explicit arguments: the credit-check branch's
  `Math.floor(Math.random() * 100)` is `rand : ℕ` (with `rand ≤ 99` where a
  property depends on the range of `Math.random`), and the retry wrapper's
  per-attempt jitter `Math.random() * 1000` is a function `jitter : ℕ → ℚ`.
-/

namespace LoanChatbot

/-! ## JavaScript string and number primitives -/

/-- JavaScript `Math.round` for the nonnegative values the server rounds:
round to nearest integer, half up (`⌊x + 1/2⌋`). -/
def jsRound (q : ℚ) : ℤ := ⌊q + 1/2⌋

/-- ASCII lower-casing of one character, the fragment of JavaScript
`toLowerCase` relevant to the handler's keyword patterns. -/
def toLowerChar (c : Char) : Char :=
  if 'A' ≤ c ∧ c ≤ 'Z' then Char.ofNat (c.toNat + 32) else c

/-- JavaScript `String.prototype.toLowerCase` on an ASCII string. -/
def lowerStr (s : List Char) : List Char := s.map toLowerChar

/-- JavaScript `String.prototype.includes`: `strIncludes pat s` is `true`
iff `pat` occurs contiguously inside `s`. -/
def strIncludes (pat : List Char) : List Char → Bool
  | [] => pat.isEmpty
  | c :: rest => pat.isPrefixOf (c :: rest) || strIncludes pat rest

/-- JavaScript `x || d` for numbers: `0` (and `NaN`, not modelled) is falsy. -/
def jsOrNum (q d : ℚ) : ℚ := if q = 0 then d else q

/-- JavaScript `s || d` for strings: the empty string is falsy. -/
def jsOrStr (s d : List Char) : List Char := if s = [] then d else s

/-! ## Data model of `src/app.js` -/

/-- The session stages `src/app.js` writes into `sessionData[session].stage`. -/
inductive Stage : Type
  | initiation
  | sales
  | verification
  | underwriting
  | approved
  | completed
  deriving DecidableEq

/-- The `form_data.form_data` payload of a submitted customer-info form. -/
structure FormData : Type where
  full_name : List Char
  phone : List Char
  city : List Char
  age : ℤ
  monthly_salary : ℚ
  loan_amount : ℚ
  employment_type : List Char
  deriving DecidableEq

/-- `state.customerData` as built by the form-submission branch. -/
structure CustomerData : Type where
  name : List Char
  phone : List Char
  city : List Char
  age : ℤ
  salary : ℚ
  loanAmount : ℚ
  employmentType : List Char
  deriving DecidableEq

/-- One entry of `sessionData` (`{ stage, customerData, loanOption }`;
`loanOption` is written nowhere in `src/app.js` and is omitted). -/
structure ChatSession : Type where
  stage : Stage
  customerData : Option CustomerData
  deriving DecidableEq

/-- A loan option of the form-submission branch's `options` array. -/
structure LoanOption : Type where
  index : ℕ
  amount : ℚ
  tenure : ℕ
  interest_rate : ℚ
  emi : ℤ
  deriving DecidableEq

/-- A record pushed onto `applications` by the approval branch. The `id`
field models `` `APP_${Date.now()}` `` by its timestamp. -/
structure Application : Type where
  id : ℕ
  customer_name : List Char
  requested_amount : ℚ
  approved_amount : ℚ
  tenure : ℕ
  interest_rate : ℚ
  emi : ℤ
  status : List Char
  deriving DecidableEq

/-- A record pushed onto `sanctionLetters` by the sanction-letter branch.
The `id` field models `` `SL_${Date.now()}` `` by its timestamp. -/
structure SanctionLetter : Type where
  id : ℕ
  customer_name : List Char
  loan_amount : ℚ
  tenure : ℕ
  interest_rate : ℚ
  emi : ℤ
  downloaded_count : ℕ
  deriving DecidableEq

/-- The mutable module-level state of `src/app.js`:
`applications`, `sanctionLetters` and `sessionData`. -/
structure ServerState : Type where
  applications : List Application
  sanctionLetters : List SanctionLetter
  sessionData : ℕ → Option ChatSession

/-- The observable reply of one `POST /api/chat/message` call: which branch
answered, and the branch's decision-relevant payload. -/
inductive Response : Type
  | loanOptions (options : List LoanOption)
  | form
  | optionSelected
  | creditCheck (score : ℕ)
  | sanctionLetterGenerated (letterId : ℕ)
  | approval (amount : ℚ)
  | defaultReply
  deriving DecidableEq

/-- The request body `{ message, sessionId, form_data }` (with
`form_data?.form_data` flattened into an `Option`). -/
structure ChatRequest : Type where
  message : List Char
  form_data : Option FormData

/-- `sessionData[session] = { stage: 'initiation', customerData: null, ... }` -/
def initialSession : ChatSession :=
  { stage := Stage.initiation, customerData := none }

/-- Empty module-level state at server start. -/
def initialServer : ServerState :=
  { applications := [], sanctionLetters := [], sessionData := fun _ => none }

/-- Overwrite one session's entry in `sessionData`. -/
def setSession (st : ServerState) (sid : ℕ) (s : ChatSession) : ServerState :=
  { st with sessionData := fun k => if k = sid then some s else st.sessionData k }

/-- `state.customerData?.loanAmount || 500000` -/
def sessionAmount (cd : Option CustomerData) : ℚ :=
  match cd with
  | none => 500000
  | some c => jsOrNum c.loanAmount 500000

/-- `state.customerData?.name || 'Customer'` -/
def sessionName (cd : Option CustomerData) : List Char :=
  match cd with
  | none => "Customer".data
  | some c => jsOrStr c.name "Customer".data

/-- The three options of the form-submission branch:
`Math.round(amount * 0.0332)`, `* 0.0266`, `* 0.0227` at 36/48/60 months. -/
def loanOptionsFor (amount : ℚ) : List LoanOption :=
  [ { index := 1, amount := amount, tenure := 36, interest_rate := 12,
      emi := jsRound (amount * (332/10000)) }
  , { index := 2, amount := amount, tenure := 48, interest_rate := 25/2,
      emi := jsRound (amount * (266/10000)) }
  , { index := 3, amount := amount, tenure := 60, interest_rate := 13,
      emi := jsRound (amount * (227/10000)) } ]

/-- The application record pushed by the approval branch. -/
def approvalApplication (now : ℕ) (cd : Option CustomerData) : Application :=
  { id := now
  , customer_name := sessionName cd
  , requested_amount := sessionAmount cd
  , approved_amount := sessionAmount cd
  , tenure := 60
  , interest_rate := 12
  , emi := jsRound (sessionAmount cd * (222/10000))
  , status := "approved".data }

/-- The letter record pushed by the sanction-letter branch. -/
def sanctionLetterFor (now : ℕ) (cd : Option CustomerData) : SanctionLetter :=
  { id := now
  , customer_name := sessionName cd
  , loan_amount := sessionAmount cd
  , tenure := 60
  , interest_rate := 12
  , emi := jsRound (sessionAmount cd * (222/10000))
  , downloaded_count := 0 }

/-- One call of the `POST /api/chat/message` handler of `src/app.js`, with
`Date.now()` as `now` and the credit branch's `Math.floor(Math.random()*100)`
as `rand`. The branches appear in the handler's source order: form
submission, greeting, option selection, credit check, sanction letter
(checked before approval), approval, default reply. -/
def chatStep (st : ServerState) (sid : ℕ) (req : ChatRequest) (now rand : ℕ) :
    ServerState × Response :=
  let state := (st.sessionData sid).getD initialSession
  let st := setSession st sid state
  match req.form_data with
  | some fd =>
      let cd : CustomerData :=
        { name := fd.full_name, phone := fd.phone, city := fd.city
        , age := fd.age, salary := fd.monthly_salary
        , loanAmount := fd.loan_amount, employmentType := fd.employment_type }
      (setSession st sid { stage := Stage.sales, customerData := some cd },
       Response.loanOptions (loanOptionsFor cd.loanAmount))
  | none =>
      let msgLower := lowerStr req.message
      if state.stage = Stage.initiation ∧
          (strIncludes "loan".data msgLower ∨ strIncludes "apply".data msgLower ∨
           strIncludes "need".data msgLower ∨ strIncludes "hi".data msgLower ∨
           strIncludes "hello".data msgLower) then
        (st, Response.form)
      else if strIncludes "select".data msgLower ∨ strIncludes "option".data msgLower then
        (setSession st sid { state with stage := Stage.verification },
         Response.optionSelected)
      else if strIncludes "verification complete".data msgLower ∨
          strIncludes "credit check".data msgLower then
        (setSession st sid { state with stage := Stage.underwriting },
         Response.creditCheck (rand + 750))
      else if state.stage = Stage.approved ∧
          (strIncludes "sanction".data msgLower ∨ strIncludes "letter".data msgLower ∨
           strIncludes "generate".data msgLower) then
        (setSession
          { st with sanctionLetters :=
              st.sanctionLetters ++ [sanctionLetterFor now state.customerData] }
          sid { state with stage := Stage.completed },
         Response.sanctionLetterGenerated now)
      else if state.stage ≠ Stage.approved ∧
          (strIncludes "approval".data msgLower ∨ strIncludes "approve".data msgLower ∨
           strIncludes "eligibility".data msgLower) then
        (setSession
          { st with applications :=
              st.applications ++ [approvalApplication now state.customerData] }
          sid { state with stage := Stage.approved },
         Response.approval (sessionAmount state.customerData))
      else
        (st, Response.defaultReply)

/-- The payload of `GET /api/history/statistics` in `src/app.js`. -/
structure Statistics : Type where
  total_applications : ℕ
  approved : ℕ
  rejected : ℕ
  pending : ℕ
  approval_rate : ℕ
  total_sanction_letters : ℕ
  deriving DecidableEq

/-- `GET /api/history/statistics`: `rejected`, `pending` and `approval_rate`
are literals in the source; `approved` counts `status === 'approved'`. -/
def statistics (st : ServerState) : Statistics :=
  { total_applications := st.applications.length
  , approved := (st.applications.filter fun a => a.status = "approved".data).length
  , rejected := 0
  , pending := 0
  , approval_rate := 100
  , total_sanction_letters := st.sanctionLetters.length }

/-- Server states reachable from a fresh server by any sequence of chat
calls (any sessions, messages, forms, timestamps and random draws). -/
inductive Reachable : ServerState → Prop
  | init : Reachable initialServer
  | step (st : ServerState) (sid : ℕ) (req : ChatRequest) (now rand : ℕ) :
      Reachable st → Reachable (chatStep st sid req now rand).1

/-- The constant reply of `GET /offers/:userId` in `src/app.js`. -/
structure Offer : Type where
  preApprovedLimit : ℚ
  interestRate : ℚ
  deriving DecidableEq

/-- `res.json({ success: true, preApprovedLimit: 500000, interestRate: 12.5 })` -/
def offersHandler : Offer :=
  { preApprovedLimit := 500000, interestRate := 25/2 }

/-! ## The landing page's `calculateEMI` (reducing-balance annuity) -/

/-- The local `emi` of `calculateEMI`: `r = rate / 12 / 100`,
`emi = (P * r * (1+r)^months) / ((1+r)^months - 1)`, before rounding. -/
def emiFormula (principal : ℚ) (months : ℕ) (rate : ℚ) : ℚ :=
  principal * (rate / 12 / 100) * (1 + rate / 12 / 100) ^ months /
    ((1 + rate / 12 / 100) ^ months - 1)

/-- The landing page's `calculateEMI`: the annuity value passed through
`Math.round` (the call site uses the default `rate = 12`). -/
def calculateEMI (principal : ℚ) (months : ℕ) (rate : ℚ) : ℤ :=
  jsRound (emiFormula principal months rate)

/-! ## The frontend API client's retry wrapper `withRetry` -/

/-- `{ maxRetries, baseDelay, maxDelay }` of the services layer. -/
structure RetryConfig : Type where
  maxRetries : ℕ
  baseDelay : ℚ
  maxDelay : ℚ
  deriving DecidableEq

/-- `DEFAULT_RETRY_CONFIG = { maxRetries: 3, baseDelay: 1000, maxDelay: 10000 }` -/
def DEFAULT_RETRY_CONFIG : RetryConfig :=
  { maxRetries := 3, baseDelay := 1000, maxDelay := 10000 }

/-- What one `operation()` call does: return a value, or throw. A thrown
axios error carries `error.response?.status` (`none` when there is no HTTP
response: network failure, timeout, or a non-axios error). -/
inductive AttemptOutcome (α : Type) : Type
  | ok (v : α)
  | err (status : Option ℕ)
  deriving DecidableEq

/-- The wrapper's immediate-rethrow test:
`status && status >= 400 && status < 500 && status !== 408 && status !== 429`
(a `status` of `0` or `undefined` is falsy, hence retryable). -/
def nonRetryable (status : Option ℕ) : Bool :=
  match status with
  | some s => decide (s ≠ 0 ∧ 400 ≤ s ∧ s < 500 ∧ s ≠ 408 ∧ s ≠ 429)
  | none => false

/-- Observable behaviour of one `withRetry` run: how many times
`operation()` was invoked, the backoff delays slept between attempts, and
the final outcome (`Except.error` models the wrapper throwing). -/
structure RetryResult (α : Type) : Type where
  attempts : ℕ
  delays : List ℚ
  result : Except (Option ℕ) α

/-- The `for (let attempt = 0; attempt <= config.maxRetries; attempt++)`
loop of `withRetry`. `fuel` is the number of iterations still allowed after
the current one (`config.maxRetries - attempt`); the `attempt === maxRetries`
break is the `fuel = 0` case. The backoff delay is
`min(baseDelay * 2^attempt + jitter(attempt), maxDelay)` where
`jitter attempt` models that attempt's `Math.random() * 1000`. -/
def retryLoop {α : Type} (cfg : RetryConfig) (op : ℕ → AttemptOutcome α)
    (jitter : ℕ → ℚ) : (attempt fuel : ℕ) → RetryResult α
  | attempt, fuel =>
    match op attempt with
    | AttemptOutcome.ok v => { attempts := 1, delays := [], result := Except.ok v }
    | AttemptOutcome.err s =>
        if nonRetryable s then
          { attempts := 1, delays := [], result := Except.error s }
        else
          match fuel with
          | 0 => { attempts := 1, delays := [], result := Except.error s }
          | fuel' + 1 =>
              let d := min (cfg.baseDelay * 2 ^ attempt + jitter attempt) cfg.maxDelay
              let rest := retryLoop cfg op jitter (attempt + 1) fuel'
              { attempts := rest.attempts + 1
              , delays := d :: rest.delays
              , result := rest.result }

/-- `withRetry(operation, config)`: run the loop from `attempt = 0` with
`maxRetries` further iterations allowed. -/
def withRetry {α : Type} (cfg : RetryConfig) (op : ℕ → AttemptOutcome α)
    (jitter : ℕ → ℚ) : RetryResult α :=
  retryLoop cfg op jitter 0 cfg.maxRetries

/-! ## The frontend `useChat` hook and its `resetConversation` -/

/-- The worker-agent tags of the frontend type layer. -/
inductive Agent : Type
  | master
  | sales
  | verification
  | underwriting
  | sanction
  deriving DecidableEq

/-- `ChatMessage.messageType` of the frontend models. -/
inductive MessageType : Type
  | text
  | file
  | system
  | download_link
  | form
  | loan_options
  deriving DecidableEq

/-- `ChatMessage.sender` of the frontend models. -/
inductive Sender : Type
  | user
  | agent
  deriving DecidableEq

/-- A frontend `ChatMessage` (the `timestamp: Date` and free-form
`metadata` presentation fields are omitted). -/
structure ChatMessage : Type where
  id : List Char
  content : List Char
  sender : Sender
  messageType : MessageType
  agentType : Option Agent
  deriving DecidableEq

/-- `ErrorLog.severity` of the frontend models. -/
inductive Severity : Type
  | low
  | medium
  | high
  | critical
  deriving DecidableEq

/-- An `ErrorLog` entry of the frontend models (the free-form `context`
record is omitted). -/
structure ErrorLog : Type where
  id : List Char
  timestamp : ℕ
  message : List Char
  severity : Severity
  deriving DecidableEq

/-- The frontend `ConversationContext` (`collectedData` is a
`Record<string, any>`; its `any` values are modelled as strings since the
core never inspects them). -/
structure ConversationContext : Type where
  sessionId : List Char
  customerId : Option (List Char)
  currentAgent : Agent
  conversationStage : List Char
  collectedData : List (List Char × List Char)
  pendingTasks : List (List Char)
  completedTasks : List (List Char)
  errors : List ErrorLog
  deriving DecidableEq

/-- The customer data the `useChat` hook keeps from the submitted form. -/
structure HookCustomerData : Type where
  name : List Char
  phone : List Char
  city : List Char
  age : ℤ
  loanAmount : ℚ
  salary : ℚ
  employmentType : List Char
  deriving DecidableEq

/-- The `useChat` hook's pieces of React state. -/
structure HookState : Type where
  messages : List ChatMessage
  isTyping : Bool
  isLoading : Bool
  currentAgent : Agent
  conversationContext : Option ConversationContext
  error : Option (List Char)
  customerData : Option HookCustomerData
  deriving DecidableEq

/-- The initial welcome message the hook starts with and that
`resetConversation` restores. -/
def welcomeMessage : ChatMessage :=
  { id := "welcome_msg".data
  , content := "Hello! I\x27m your AI Loan Assistant. I\x27m here to help you with your personal loan application. How can I assist you today?".data
  , sender := Sender.agent
  , messageType := MessageType.text
  , agentType := some Agent.master }

/-- The hook's `resetConversation`. `apiOk` is whether the awaited
`chatApi.resetConversation` call resolves: on success the hook replaces
`messages` with the single welcome message and sets
`conversationContext = null`, `currentAgent = 'master'`, `error = null`;
on failure (the `catch` arm) it only records the error message. The
`finally` arm clears `isLoading` on both paths. Against `src/app.js` the
`POST /api/chat/reset` request always fails, because the server registers
no such route; the server-side `sessionData` is untouched either way. -/
def resetConversation (st : HookState) (apiOk : Bool) (errMsg : List Char) :
    HookState :=
  if apiOk then
    { st with
      messages := [welcomeMessage]
      conversationContext := none
      currentAgent := Agent.master
      error := none
      isLoading := false }
  else
    { st with error := some errMsg, isLoading := false }

/-! ## Concrete runs of the chat endpoint used below -/

/-- A submitted customer-info form with the given salary and loan amount. -/
def mkForm (salary amount : ℚ) : FormData :=
  { full_name := "Asha Rao".data, phone := "9876500000".data, city := "Pune".data
  , age := 30, monthly_salary := salary, loan_amount := amount
  , employment_type := "salaried".data }

/-- The message that drives the credit-check branch. -/
def creditReq : ChatRequest := { message := "credit check".data, form_data := none }

/-- The message that drives the approval branch. -/
def approvalReq : ChatRequest := { message := "approval".data, form_data := none }

/-- The message that drives the sanction-letter branch. -/
def generateReq : ChatRequest := { message := "generate sanction letter".data, form_data := none }

/-- Step 1 of an end-to-end run in session 1: submit the form at `t = 1`. -/
def scenarioStep1 (salary amount : ℚ) : ServerState × Response :=
  chatStep initialServer 1 { message := [], form_data := some (mkForm salary amount) } 1 0

/-- Step 2: ask for the credit check at `t = 2` (random draw 0). -/
def scenarioStep2 (salary amount : ℚ) : ServerState × Response :=
  chatStep (scenarioStep1 salary amount).1 1 creditReq 2 0

/-- Step 3: ask for approval at `t = 3`. -/
def scenarioStep3 (salary amount : ℚ) : ServerState × Response :=
  chatStep (scenarioStep2 salary amount).1 1 approvalReq 3 0

/-- After an approved run (salary 80000, amount 500000): first
sanction-letter request, at `t = 4`. -/
def c6Step4 : ServerState × Response :=
  chatStep (scenarioStep3 80000 500000).1 1 generateReq 4 0

/-- Second sanction-letter request for the same session, at `t = 5`. -/
def c6Step5 : ServerState × Response := chatStep c6Step4.1 1 generateReq 5 0

/-- Re-enter the approved stage via another approval message, at `t = 6`. -/
def c6Step6 : ServerState × Response := chatStep c6Step5.1 1 approvalReq 6 0

/-- Third sanction-letter request, at `t = 7`. -/
def c6Step7 : ServerState × Response := chatStep c6Step6.1 1 generateReq 7 0

/-- A fresh server after one approval message in session 1 at `t = 5`. -/
def approvedOnceServer : ServerState :=
  (chatStep initialServer 1 approvalReq 5 0).1

/-- A mid-underwriting conversation context with a nonempty errors history,
for exercising `resetConversation`. -/
def sampleContext : ConversationContext :=
  { sessionId := "session_42".data
  , customerId := none
  , currentAgent := Agent.underwriting
  , conversationStage := "underwriting".data
  , collectedData := [("loan_amount".data, "500000".data)]
  , pendingTasks := ["underwriting".data]
  , completedTasks := ["verification".data]
  , errors := [{ id := "err_1".data, timestamp := 5
               , message := "upstream timeout".data, severity := Severity.medium }] }

/-- A hook state holding `sampleContext` just before a reset. -/
def sampleHookState : HookState :=
  { messages := [welcomeMessage]
  , isTyping := false
  , isLoading := true
  , currentAgent := Agent.underwriting
  , conversationContext := some sampleContext
  , error := none
  , customerData := none }

end LoanChatbot

namespace LoanChatbot

/-! ## Helper lemmas -/

@[simp] lemma setSession_applications (st : ServerState) (sid : ℕ) (s : ChatSession) :
    (setSession st sid s).applications = st.applications := rfl

@[simp] lemma setSession_sanctionLetters (st : ServerState) (sid : ℕ) (s : ChatSession) :
    (setSession st sid s).sanctionLetters = st.sanctionLetters := rfl

@[simp] lemma setSession_sessionData_self (st : ServerState) (sid : ℕ) (s : ChatSession) :
    (setSession st sid s).sessionData sid = some s := by simp [setSession]

lemma reachable_status_approved {st : ServerState} (h : Reachable st) :
    ∀ a ∈ st.applications, a.status = "approved".data := by
  induction h with
  | init => simp [initialServer]
  | step st sid req now rand _ ih =>
    intro a ha
    unfold chatStep at ha
    dsimp only at ha
    split at ha
    · simp at ha
      exact ih a ha
    · split at ha
      · simp at ha; exact ih a ha
      · split at ha
        · simp at ha; exact ih a ha
        · split at ha
          · simp at ha; exact ih a ha
          · split at ha
            · simp at ha; exact ih a ha
            · split at ha
              · simp [setSession] at ha
                rcases ha with ha | ha
                · exact ih a ha
                · subst ha; rfl
              · simp at ha; exact ih a ha

lemma annuity_repr (P x : ℚ) (n : ℕ) (hx : x - 1 ≠ 0) :
    P * (x - 1) * x ^ n / (x ^ n - 1) = P * x ^ n / ∑ i ∈ Finset.range n, x ^ i := by
  rw [← geom_sum_mul x n, show P * (x - 1) * x ^ n = P * x ^ n * (x - 1) by ring,
    mul_div_mul_right _ _ hx]

lemma annuity_repr2 (P r : ℚ) (n : ℕ) (hr : r ≠ 0) :
    P * r * (1 + r) ^ n / ((1 + r) ^ n - 1) =
      P * (1 + r) ^ n / ∑ i ∈ Finset.range n, (1 + r) ^ i := by
  have h1 : (1 + r) - 1 = r := by ring
  calc P * r * (1 + r) ^ n / ((1 + r) ^ n - 1)
      = P * ((1 + r) - 1) * (1 + r) ^ n / ((1 + r) ^ n - 1) := by rw [h1]
    _ = _ := annuity_repr P (1 + r) n (by rw [h1]; exact hr)

lemma emiFormula_eq_geom (P rate : ℚ) (n : ℕ) (hr : rate ≠ 0) :
    emiFormula P n rate =
      P * (1 + rate / 12 / 100) ^ n / ∑ i ∈ Finset.range n, (1 + rate / 12 / 100) ^ i := by
  have hr' : rate / 12 / 100 ≠ 0 := div_ne_zero (div_ne_zero hr (by norm_num)) (by norm_num)
  rw [emiFormula]
  exact annuity_repr2 P _ n hr'

lemma geomSum_pos {x : ℚ} (hx : 0 < x) {n : ℕ} (hn : 1 ≤ n) :
    0 < ∑ i ∈ Finset.range n, x ^ i :=
  Finset.sum_pos (fun i _ => pow_pos hx i) (Finset.nonempty_range_iff.mpr (by omega))

lemma emiFormula_lt_principal (P P' rate : ℚ) (n : ℕ)
    (hPP : P < P') (hr : 0 < rate) (hn : 1 ≤ n) :
    emiFormula P n rate < emiFormula P' n rate := by
  have hx0 : (0 : ℚ) < 1 + rate / 12 / 100 := by positivity
  rw [emiFormula_eq_geom P rate n (ne_of_gt hr), emiFormula_eq_geom P' rate n (ne_of_gt hr)]
  have hS : 0 < ∑ i ∈ Finset.range n, (1 + rate / 12 / 100) ^ i := geomSum_pos hx0 hn
  have hA : (0 : ℚ) < (1 + rate / 12 / 100) ^ n := pow_pos hx0 n
  gcongr

lemma pow_mul_pow_lt {x y : ℚ} (hx : 0 < x) (hxy : x < y) {i n : ℕ} (hi : i < n)
    (c : ℚ) (hc : 0 < c) :
    c * x ^ n * y ^ i < c * y ^ n * x ^ i := by
  have hy0 : (0 : ℚ) < y := lt_trans hx hxy
  have hni : i + (n - i) = n := Nat.add_sub_cancel' (le_of_lt hi)
  have hxn : x ^ n = x ^ i * x ^ (n - i) := by rw [← pow_add, hni]
  have hyn : y ^ n = y ^ i * y ^ (n - i) := by rw [← pow_add, hni]
  have hpow : x ^ (n - i) < y ^ (n - i) :=
    pow_lt_pow_left₀ hxy (le_of_lt hx) (Nat.sub_ne_zero_of_lt hi)
  calc c * x ^ n * y ^ i = (c * x ^ i * y ^ i) * x ^ (n - i) := by rw [hxn]; ring
    _ < (c * x ^ i * y ^ i) * y ^ (n - i) := by
        apply mul_lt_mul_of_pos_left hpow
        positivity
    _ = c * y ^ n * x ^ i := by rw [hyn]; ring

lemma emiFormula_lt_rate (P rate rate' : ℚ) (n : ℕ)
    (hP : 0 < P) (hr : 0 < rate) (hrr : rate < rate') (hn : 1 ≤ n) :
    emiFormula P n rate < emiFormula P n rate' := by
  have hr' : (0 : ℚ) < rate' := lt_trans hr hrr
  set x := 1 + rate / 12 / 100 with hxdef
  set y := 1 + rate' / 12 / 100 with hydef
  have hx0 : (0 : ℚ) < x := by rw [hxdef]; positivity
  have hy0 : (0 : ℚ) < y := by rw [hydef]; positivity
  have hxy : x < y := by rw [hxdef, hydef]; linarith
  rw [emiFormula_eq_geom P rate n (ne_of_gt hr), emiFormula_eq_geom P rate' n (ne_of_gt hr')]
  rw [← hxdef, ← hydef]
  have hSx : 0 < ∑ i ∈ Finset.range n, x ^ i := geomSum_pos hx0 hn
  have hSy : 0 < ∑ i ∈ Finset.range n, y ^ i := geomSum_pos hy0 hn
  rw [div_lt_div_iff₀ hSx hSy, Finset.mul_sum, Finset.mul_sum]
  apply Finset.sum_lt_sum_of_nonempty (Finset.nonempty_range_iff.mpr (by omega))
  intro i hi
  exact pow_mul_pow_lt hx0 hxy (Finset.mem_range.mp hi) P hP

lemma emiFormula_anti_succ (P rate : ℚ) (n : ℕ)
    (hP : 0 < P) (hr : 0 < rate) (hn : 1 ≤ n) :
    emiFormula P (n + 1) rate < emiFormula P n rate := by
  set x := 1 + rate / 12 / 100 with hxdef
  have hx0 : (0 : ℚ) < x := by rw [hxdef]; positivity
  rw [emiFormula_eq_geom P rate (n + 1) (ne_of_gt hr), emiFormula_eq_geom P rate n (ne_of_gt hr)]
  rw [← hxdef]
  have hSn : 0 < ∑ i ∈ Finset.range n, x ^ i := geomSum_pos hx0 hn
  have hSn1 : 0 < ∑ i ∈ Finset.range (n + 1), x ^ i := geomSum_pos hx0 (by omega)
  rw [div_lt_div_iff₀ hSn1 hSn, Finset.sum_range_succ]
  have hgs : (∑ i ∈ Finset.range n, x ^ i) * (x - 1) = x ^ n - 1 := geom_sum_mul x n
  have hxn : (0 : ℚ) < x ^ n := pow_pos hx0 n
  have key : P * x ^ n * (∑ i ∈ Finset.range n, x ^ i + x ^ n) -
      P * x ^ (n + 1) * ∑ i ∈ Finset.range n, x ^ i = P * x ^ n := by
    linear_combination (-(P * x ^ n)) * hgs
  nlinarith [mul_pos hP hxn]

lemma emiFormula_anti_tenure (P rate : ℚ) (n m : ℕ)
    (hP : 0 < P) (hr : 0 < rate) (hn : 1 ≤ n) (hnm : n < m) :
    emiFormula P m rate < emiFormula P n rate := by
  induction m with
  | zero => omega
  | succ m ih =>
    rcases Nat.lt_or_ge n m with h | h
    · exact lt_trans (emiFormula_anti_succ P rate m hP hr (by omega)) (ih h)
    · have : n = m := by omega
      subst this
      exact emiFormula_anti_succ P rate n hP hr hn

lemma retryLoop_spec {α : Type} (cfg : RetryConfig) (op : ℕ → AttemptOutcome α)
    (jitter : ℕ → ℚ)
    (hfail : ∀ i, ∃ s, op i = AttemptOutcome.err s ∧ nonRetryable s = false) :
    ∀ fuel attempt,
      (retryLoop cfg op jitter attempt fuel).attempts = fuel + 1 ∧
      (∀ d ∈ (retryLoop cfg op jitter attempt fuel).delays, d ≤ cfg.maxDelay) ∧
      (∃ e, (retryLoop cfg op jitter attempt fuel).result = Except.error e) := by
  intro fuel
  induction fuel with
  | zero =>
    intro attempt
    obtain ⟨s, hs, hnr⟩ := hfail attempt
    unfold retryLoop
    rw [hs]
    simp [hnr]
  | succ fuel ih =>
    intro attempt
    obtain ⟨s, hs, hnr⟩ := hfail attempt
    unfold retryLoop
    rw [hs]
    simp only [hnr, Bool.false_eq_true, if_false, reduceCtorEq]
    obtain ⟨hatt, hdel, e, hres⟩ := ih (attempt + 1)
    refine ⟨by simp [hatt], ?_, e, by simpa using hres⟩
    intro d hd
    simp only [List.mem_cons] at hd
    rcases hd with rfl | hd
    · exact min_le_right _ _
    · exact hdel d hd

lemma retryLoop_attempts_le {α : Type} (cfg : RetryConfig) (op : ℕ → AttemptOutcome α)
    (jitter : ℕ → ℚ) :
    ∀ fuel attempt, (retryLoop cfg op jitter attempt fuel).attempts ≤ fuel + 1 := by
  intro fuel
  induction fuel with
  | zero =>
    intro attempt
    unfold retryLoop
    rcases op attempt with v | s <;> simp
  | succ fuel ih =>
    intro attempt
    unfold retryLoop
    rcases hop : op attempt with v | s
    · simp
    · simp only
      split
      · simp
      · simpa using Nat.succ_le_succ (ih (attempt + 1))

end LoanChatbot

namespace LoanChatbot

/-! ## Claim theorems -/

/-- C1. The spec requires: fetched credit score < 700 ⇒ reject with reason
"credit_score_below_threshold" (a 650-score profile asking below its limit
is rejected). The chat endpoint of `src/app.js` contradicts this: in an
end-to-end run asking for 100000 (below the 500000 pre-approved limit of
the offers route), the credit-check branch reports score 750 (its draws
are `rand + 750`, never below 700, so a 650 score is unrealisable), and
the approval branch then stores the application with status `'approved'` —
no code path rejects, for any credit outcome. -/
theorem scenarioC_credit_rule_not_enforced :
    (scenarioStep2 50000 100000).2 = Response.creditCheck 750 ∧
    ¬ (750 : ℕ) < 700 ∧
    (scenarioStep3 50000 100000).1.applications.map
      (fun a => (a.status, a.requested_amount)) = [("approved".data, 100000)] ∧
    (100000 : ℚ) ≤ offersHandler.preApprovedLimit := by
  refine ⟨?_, by omega, ?_, by norm_num [offersHandler]⟩
  · simp +decide [scenarioStep2, scenarioStep1, creditReq, chatStep, setSession, initialServer]
  · norm_num +decide [scenarioStep3, scenarioStep2, scenarioStep1, creditReq, approvalReq,
      chatStep, setSession, initialServer, approvalApplication, sessionAmount, jsOrNum,
      sessionName, jsOrStr, mkForm]

/-- C2. The spec requires: requestedAmount > 2 × preApprovedLimit ⇒ reject
with reason "amount_exceeds_maximum_multiple". The chat endpoint of
`src/app.js` contradicts this: requesting 1200000 against the constant
500000 pre-approved limit of the offers route (strictly above 2 ×), the
approval branch stores the application with status `'approved'` — the
handler never consults `preApprovedLimit` and has no rejection path. -/
theorem scenarioD_amount_rule_not_enforced :
    2 * offersHandler.preApprovedLimit < 1200000 ∧
    (scenarioStep3 80000 1200000).1.applications.map
      (fun a => (a.status, a.requested_amount)) = [("approved".data, 1200000)] := by
  refine ⟨by norm_num [offersHandler], ?_⟩
  norm_num +decide [scenarioStep3, scenarioStep2, scenarioStep1, creditReq, approvalReq,
    chatStep, setSession, initialServer, approvalApplication, sessionAmount, jsOrNum,
    sessionName, jsOrStr, mkForm]

/-- C3. The spec requires: for limit < amount ≤ 2 × limit, approve iff
EMI ≤ 0.5 × monthlySalary, else reject with "emi_affordability_exceeded".
The chat endpoint of `src/app.js` contradicts this: with monthly salary
10000 and requested amount 900000 (between the 500000 limit and 2 × it),
the stored application's EMI is `Math.round(900000 * 0.0222) = 19980`,
far above half the salary (5000), yet the approval branch stores status
`'approved'` — no affordability check exists. -/
theorem emi_affordability_not_enforced :
    offersHandler.preApprovedLimit < 900000 ∧
    (900000 : ℚ) ≤ 2 * offersHandler.preApprovedLimit ∧
    (scenarioStep3 10000 900000).1.applications.map
      (fun a => (a.status, a.requested_amount)) = [("approved".data, 900000)] ∧
    (scenarioStep3 10000 900000).1.applications.map Application.emi =
      [jsRound ((900000 : ℚ) * (222/10000))] ∧
    jsRound ((900000 : ℚ) * (222/10000)) = 19980 ∧
    ¬ ((19980 : ℚ) ≤ (1/2) * 10000) := by
  refine ⟨by norm_num [offersHandler], by norm_num [offersHandler], ?_, ?_, ?_, by norm_num⟩
  · norm_num +decide [scenarioStep3, scenarioStep2, scenarioStep1, creditReq, approvalReq,
      chatStep, setSession, initialServer, approvalApplication, sessionAmount, jsOrNum,
      sessionName, jsOrStr, mkForm]
  · norm_num +decide [scenarioStep3, scenarioStep2, scenarioStep1, creditReq, approvalReq,
      chatStep, setSession, initialServer, approvalApplication, sessionAmount, jsOrNum,
      sessionName, jsOrStr, mkForm]
  · rw [jsRound, Int.floor_eq_iff] ; norm_num

/-- C4 counterexample. At principal 100000, tenure 36, annual rate 12, the
EMI presented for the first loan option is `Math.round(100000 * 0.0332)
= 3320`, while the reducing-balance annuity formula of the claim, rounded
half-up, gives 3321 — the presented option EMI does not equal the
formula. -/
theorem loanOption_emi_differs_from_annuity :
    ((loanOptionsFor 100000).map LoanOption.emi).head? = some 3320 ∧
    calculateEMI 100000 36 12 = 3321 ∧
    (3320 : ℤ) ≠ 3321 := by
  refine ⟨?_, ?_, by decide⟩
  · have h : jsRound ((100000 : ℚ) * (332/10000)) = 3320 := by
      rw [jsRound, Int.floor_eq_iff] ; norm_num
    simp [loanOptionsFor, h]
  · rw [calculateEMI, emiFormula, jsRound, Int.floor_eq_iff] ; norm_num

/-- C4 (amended). The chat endpoint's loan options carry EMIs computed as
round-half-up of the principal times the fixed multipliers 0.0332 /
0.0266 / 0.0227 for tenures 36 / 48 / 60 months (approximations, not the
annuity formula); the landing page's `calculateEMI` is the one that
returns the annuity value `P·r·(1+r)^n/((1+r)^n − 1)`, `r = rate/12/100`,
rounded to the nearest integer currency unit half-up. -/
theorem loanOption_emi_multiplier_calculateEMI_annuity :
    (∀ (st : ServerState) (sid : ℕ) (msg : List Char) (fd : FormData) (now rand : ℕ),
      (chatStep st sid { message := msg, form_data := some fd } now rand).2 =
        Response.loanOptions (loanOptionsFor fd.loan_amount)) ∧
    (∀ amount : ℚ,
      (loanOptionsFor amount).map LoanOption.emi =
        [jsRound (amount * (332/10000)), jsRound (amount * (266/10000)),
         jsRound (amount * (227/10000))] ∧
      (loanOptionsFor amount).map LoanOption.tenure = [36, 48, 60]) ∧
    (∀ (P rate : ℚ) (n : ℕ),
      calculateEMI P n rate = jsRound (P * (rate / 12 / 100) * (1 + rate / 12 / 100) ^ n /
        ((1 + rate / 12 / 100) ^ n - 1))) := by
  refine ⟨fun st sid msg fd now rand => rfl, fun amount => by simp [loanOptionsFor],
    fun P rate n => rfl⟩

/-- C5. On the positive domain, the (unrounded) annuity EMI expression of
`calculateEMI` is strictly increasing in the principal, strictly
increasing in the annual rate, and strictly decreasing in the tenure,
each with the other two arguments held fixed. -/
theorem emiFormula_strict_monotone (P P' rate rate' : ℚ) (n m : ℕ)
    (hP : 0 < P) (hPP : P < P') (hr : 0 < rate) (hrr : rate < rate')
    (hn : 1 ≤ n) (hnm : n < m) :
    emiFormula P n rate < emiFormula P' n rate ∧
    emiFormula P n rate < emiFormula P n rate' ∧
    emiFormula P m rate < emiFormula P n rate :=
  ⟨emiFormula_lt_principal P P' rate n hPP hr hn,
   emiFormula_lt_rate P rate rate' n hP hr hrr hn,
   emiFormula_anti_tenure P rate n m hP hr hn hnm⟩

/-- C5 witness: the three strict comparisons at P = 1000 < 2000,
rate = 12 < 13, tenure 12 < 24. -/
theorem emiFormula_strict_monotone_witness :
    ((0 : ℚ) < 1000 ∧ (1000 : ℚ) < 2000 ∧ (0 : ℚ) < 12 ∧ (12 : ℚ) < 13 ∧
      (1 : ℕ) ≤ 12 ∧ (12 : ℕ) < 24) ∧
    (emiFormula 1000 12 12 < emiFormula 2000 12 12 ∧
     emiFormula 1000 12 12 < emiFormula 1000 12 13 ∧
     emiFormula 1000 24 12 < emiFormula 1000 12 12) :=
  ⟨by norm_num,
   emiFormula_strict_monotone 1000 2000 12 13 12 24 (by norm_num) (by norm_num)
     (by norm_num) (by norm_num) (by norm_num) (by norm_num)⟩

end LoanChatbot

namespace LoanChatbot

/-- C6 counterexample. In a single approved session, the first
sanction-letter request (at t = 4) creates artifact `SL_4` and the second
request (at t = 5) returns the default reply with no artifact at all — the
two invocations do not yield the same artifact id. Re-entering the
approved stage with another approval message and asking again (at t = 7)
creates a second artifact `SL_7 ≠ SL_4` for the same customer data: the
artifacts are not keyed by Loan Application id. -/
theorem sanction_generation_two_invocations_differ :
    c6Step4.2 = Response.sanctionLetterGenerated 4 ∧
    c6Step5.2 = Response.defaultReply ∧
    c6Step5.1.sanctionLetters.map SanctionLetter.id = [4] ∧
    c6Step7.2 = Response.sanctionLetterGenerated 7 ∧
    c6Step7.1.sanctionLetters.map SanctionLetter.id = [4, 7] ∧
    (4 : ℕ) ≠ 7 := by
  refine ⟨?_, ?_, ?_, ?_, ?_, by omega⟩ <;>
    norm_num +decide [c6Step7, c6Step6, c6Step5, c6Step4, generateReq, approvalReq,
      creditReq, scenarioStep3, scenarioStep2, scenarioStep1, chatStep, setSession,
      initialServer, mkForm, sanctionLetterFor, sessionAmount, sessionName, jsOrNum,
      jsOrStr]

/-- C6 (amended). Sanction-letter generation is guarded by the session
stage, not keyed by Loan Application id: from an approved session, the
first generation request returns a fresh artifact id (the invocation
timestamp), appends exactly one artifact, and moves the session to
completed; a second generation request in the same session then falls
through to the default reply and appends nothing. -/
theorem sanction_generation_session_guard (st : ServerState) (sid : ℕ)
    (cd : Option CustomerData) (t1 t2 r1 r2 : ℕ)
    (h : st.sessionData sid = some { stage := Stage.approved, customerData := cd }) :
    (chatStep st sid generateReq t1 r1).2 = Response.sanctionLetterGenerated t1 ∧
    (chatStep st sid generateReq t1 r1).1.sanctionLetters =
      st.sanctionLetters ++ [sanctionLetterFor t1 cd] ∧
    (chatStep (chatStep st sid generateReq t1 r1).1 sid generateReq t2 r2).2 =
      Response.defaultReply ∧
    (chatStep (chatStep st sid generateReq t1 r1).1 sid generateReq t2 r2).1.sanctionLetters =
      (chatStep st sid generateReq t1 r1).1.sanctionLetters := by
  simp +decide [generateReq, chatStep, setSession, h]

/-- C6 witness: the guard behaviour at a concrete approved session. -/
theorem sanction_generation_session_guard_witness :
    ((setSession initialServer 3 { stage := Stage.approved, customerData := none }).sessionData 3 =
      some { stage := Stage.approved, customerData := none }) ∧
    ((chatStep (setSession initialServer 3 { stage := Stage.approved, customerData := none })
        3 generateReq 1 0).2 = Response.sanctionLetterGenerated 1 ∧
     (chatStep (setSession initialServer 3 { stage := Stage.approved, customerData := none })
        3 generateReq 1 0).1.sanctionLetters =
      (setSession initialServer 3 { stage := Stage.approved, customerData := none }).sanctionLetters ++
        [sanctionLetterFor 1 none] ∧
     (chatStep (chatStep (setSession initialServer 3
          { stage := Stage.approved, customerData := none }) 3 generateReq 1 0).1
        3 generateReq 2 0).2 = Response.defaultReply ∧
     (chatStep (chatStep (setSession initialServer 3
          { stage := Stage.approved, customerData := none }) 3 generateReq 1 0).1
        3 generateReq 2 0).1.sanctionLetters =
      (chatStep (setSession initialServer 3 { stage := Stage.approved, customerData := none })
        3 generateReq 1 0).1.sanctionLetters) :=
  ⟨by simp [setSession],
   sanction_generation_session_guard _ 3 none 1 2 0 0 (by simp [setSession])⟩

/-- C7. For an operation that throws a retryable (transient) error on every
attempt, `withRetry` performs exactly `maxRetries + 1` attempts, every
backoff delay it sleeps is capped at `maxDelay`, and it finishes by
rethrowing the last error (a definite failure); moreover, for any
operation behaviour whatsoever the attempt count is bounded by
`maxRetries + 1` — the loop cannot run indefinitely. -/
theorem withRetry_attempt_ceiling {α : Type} (cfg : RetryConfig)
    (op : ℕ → AttemptOutcome α) (jitter : ℕ → ℚ)
    (hfail : ∀ i, ∃ s, op i = AttemptOutcome.err s ∧ nonRetryable s = false) :
    (withRetry cfg op jitter).attempts = cfg.maxRetries + 1 ∧
    (∀ d ∈ (withRetry cfg op jitter).delays, d ≤ cfg.maxDelay) ∧
    (∃ e, (withRetry cfg op jitter).result = Except.error e) ∧
    ∀ op' : ℕ → AttemptOutcome α,
      (withRetry cfg op' jitter).attempts ≤ cfg.maxRetries + 1 := by
  obtain ⟨h1, h2, h3⟩ := retryLoop_spec cfg op jitter hfail cfg.maxRetries 0
  exact ⟨h1, h2, h3, fun op' => retryLoop_attempts_le cfg op' jitter cfg.maxRetries 0⟩

/-- C7 witness: an always-failing network call (no HTTP status) under the
default config `{ maxRetries := 3, baseDelay := 1000, maxDelay := 10000 }`
stops after exactly 4 attempts with a definite failure. -/
theorem withRetry_attempt_ceiling_witness :
    (∀ i : ℕ, ∃ s, (fun _ : ℕ => AttemptOutcome.err (α := Unit) none) i =
        AttemptOutcome.err s ∧ nonRetryable s = false) ∧
    ((withRetry DEFAULT_RETRY_CONFIG (fun _ : ℕ => AttemptOutcome.err (α := Unit) none)
        fun _ => 0).attempts = DEFAULT_RETRY_CONFIG.maxRetries + 1 ∧
     (∀ d ∈ (withRetry DEFAULT_RETRY_CONFIG (fun _ : ℕ => AttemptOutcome.err (α := Unit) none)
        fun _ => 0).delays, d ≤ DEFAULT_RETRY_CONFIG.maxDelay) ∧
     (∃ e, (withRetry DEFAULT_RETRY_CONFIG (fun _ : ℕ => AttemptOutcome.err (α := Unit) none)
        fun _ => 0).result = Except.error e) ∧
     ∀ op' : ℕ → AttemptOutcome Unit,
       (withRetry DEFAULT_RETRY_CONFIG op' fun _ => 0).attempts ≤
         DEFAULT_RETRY_CONFIG.maxRetries + 1) :=
  ⟨fun _ => ⟨none, rfl, rfl⟩,
   withRetry_attempt_ceiling DEFAULT_RETRY_CONFIG _ _ (fun _ => ⟨none, rfl, rfl⟩)⟩

/-- C8 counterexample. Resetting from a state whose context has session id
"session_42" and a nonempty errors history leaves no conversation context
at all: the session id and the errors history are discarded rather than
preserved. -/
theorem reset_discards_sessionId_and_errors :
    (resetConversation sampleHookState true []).conversationContext = none ∧
    sampleHookState.conversationContext = some sampleContext ∧
    sampleContext.sessionId = "session_42".data ∧
    sampleContext.errors ≠ [] := by
  refine ⟨by simp [resetConversation], rfl, rfl, by simp [sampleContext]⟩

/-- C8 (amended). The frontend reset, when the backend call succeeds,
replaces the message list with the single welcome message and sets the
conversation context to null — dropping `collectedData`, `pendingTasks`
and `completedTasks`, but discarding the `sessionId` and `errors` history
with them — resets the current agent to master and clears the error,
while the hook's separately-held customer data is left in place; when the
backend call fails (as it always does against `src/app.js`, which
registers no reset route), only the error message is recorded and nothing
is cleared. -/
theorem reset_behavior_amended (st : HookState) (e : List Char) :
    (resetConversation st true e).conversationContext = none ∧
    (resetConversation st true e).messages = [welcomeMessage] ∧
    (resetConversation st true e).currentAgent = Agent.master ∧
    (resetConversation st true e).error = none ∧
    (resetConversation st true e).customerData = st.customerData ∧
    resetConversation st false e = { st with error := some e, isLoading := false } := by
  simp [resetConversation]

/-- C9. In every execution of the chat endpoint's credit-check branch, the
generated score `Math.floor(Math.random() * 100) + 750` lies in
[750, 849]; in particular it is never below 700, so a credit-score-based
rejection can never be triggered there, for all inputs. -/
theorem creditCheck_score_range (st : ServerState) (sid : ℕ) (req : ChatRequest)
    (now rand : ℕ) (hrand : rand ≤ 99) (s : ℕ)
    (h : (chatStep st sid req now rand).2 = Response.creditCheck s) :
    750 ≤ s ∧ s ≤ 849 ∧ ¬ s < 700 := by
  unfold chatStep at h
  dsimp only at h
  split at h
  · simp at h
  · split at h
    · simp at h
    · split at h
      · simp at h
      · split at h
        · simp only [Prod.snd] at h
          cases h
          omega
        · split at h
          · simp at h
          · split at h
            · simp at h
            · simp at h

/-- C9 witness: the branch taken on a fresh server with draw 0 reports
score 750, inside [750, 849] and not below 700. -/
theorem creditCheck_score_range_witness :
    (0 : ℕ) ≤ 99 ∧
    (chatStep initialServer 1 creditReq 2 0).2 = Response.creditCheck 750 ∧
    (750 ≤ 750 ∧ 750 ≤ 849 ∧ ¬ (750 : ℕ) < 700) :=
  ⟨by omega, by decide, creditCheck_score_range initialServer 1 creditReq 2 0
    (by omega) 750 (by decide)⟩

/-- C10. In every reachable server state, every stored Loan Application
has status 'approved', and the statistics endpoint reports rejected = 0,
approval_rate = 100 and approved = total_applications. -/
theorem statistics_reports_all_approved (st : ServerState) (h : Reachable st) :
    (∀ a ∈ st.applications, a.status = "approved".data) ∧
    (statistics st).rejected = 0 ∧
    (statistics st).approval_rate = 100 ∧
    (statistics st).approved = (statistics st).total_applications := by
  refine ⟨reachable_status_approved h, rfl, rfl, ?_⟩
  have hall := reachable_status_approved h
  simp only [statistics]
  rw [List.filter_eq_self.mpr]
  intro a ha
  exact decide_eq_true (hall a ha)

/-- C10 witness: the state after one approval message is reachable and its
statistics report one approved application, zero rejected, rate 100. -/
theorem statistics_reports_all_approved_witness :
    Reachable approvedOnceServer ∧
    ((∀ a ∈ approvedOnceServer.applications, a.status = "approved".data) ∧
     (statistics approvedOnceServer).rejected = 0 ∧
     (statistics approvedOnceServer).approval_rate = 100 ∧
     (statistics approvedOnceServer).approved =
       (statistics approvedOnceServer).total_applications) :=
  ⟨Reachable.step initialServer 1 approvalReq 5 0 Reachable.init,
   statistics_reports_all_approved approvedOnceServer
     (Reachable.step initialServer 1 approvalReq 5 0 Reachable.init)⟩

end LoanChatbot
